import Mathlib

/-!
Shallow embedding of the TerraTech/zipcodes Go package (src/zipcodes.go)
and proofs of the specification claims about it.

Modelling conventions:
* `float64` coordinates are modelled by a type parameter `α`, instantiated
  with `ℝ` for the distance functions (which use trigonometry) and with a
  decidable type such as `Int` in concrete witnesses of loader claims.
* Go's `map[string]ZipCodeLocations` with its `append`-on-assignment idiom
  is modelled by an insertion-ordered association list; `mapAppend` models
  the statement `m[k] = append(m[k], v)`.
* `strconv.ParseFloat` is an external library primitive; it is modelled by
  a parameter `pf : String → Option α` (`none` models a parse error).
* The data source (`os.Open` + `bufio.Scanner`) is modelled by an
  `Except String (List String)` (open failure or the scanned lines)
  together with an `Option String` for the error reported by
  `scanner.Err()` after the scan loop.
* `log.Fatal` terminates the process; the loader therefore returns a
  three-way result `LoadResult`: a dataset, a returned error, or a fatal
  process exit.
-/

/-- One line of the dataset (Go struct `ZipCodeLocation`), with the
coordinate type abstracted. -/
structure ZipCodeLocation (α : Type) where
  ZipCode   : String
  PlaceName : String
  AdminName : String
  Lat       : α
  Lon       : α
  StateCode : String
deriving DecidableEq, Repr

/-- Go type `ZipCodeLocations`: a slice of locations sharing a zipcode. -/
abbrev ZipCodeLocations (α : Type) := List (ZipCodeLocation α)

/-- Go struct `Zipcodes`: the whole dataset.  The Go map with its
unspecified iteration order is modelled as an insertion-ordered
association list. -/
structure Zipcodes (α : Type) where
  DatasetList : List (String × ZipCodeLocations α)
deriving DecidableEq, Repr

/-- The error values `Lookup` can return: `ErrZipcodeNotFound` and
`ErrMultipleLatLon`. -/
inductive LookupError where
  | zipcodeNotFound
  | multipleLatLon
deriving DecidableEq, Repr

/-- The errors `loadDataset` can return (the Go code builds them with
`fmt.Errorf`; the numeric errors carry the offending field value, as the
Go messages do). -/
inductive LoadError where
  | configurationError
  | ioError (msg : String)
  | malformedRecord
  | numericFormatLat (field : String)
  | numericFormatLon (field : String)
deriving DecidableEq, Repr

/-- Outcome of a load: a dataset, an error returned to the caller, or a
process exit caused by `log.Fatal` (which never returns). -/
inductive LoadResult (α : Type) where
  | ok (zc : Zipcodes α)
  | err (e : LoadError)
  | fatal (msg : String)
deriving DecidableEq, Repr

/-- Models Go `strings.Split(s, "\t")` at the level of character lists:
split into the (possibly empty) runs between tab characters.  On the
empty list it returns `[[]]`, matching `strings.Split("", "\t") = [""]`. -/
def splitTabChars : List Char → List (List Char)
  | [] => [[]]
  | c :: cs =>
      if c = '\t' then [] :: splitTabChars cs
      else
        match splitTabChars cs with
        | [] => [[c]]
        | w :: ws => (c :: w) :: ws

/-- Models Go `strings.Split(s, "\t")`. -/
def stringsSplitTab (s : String) : List String :=
  (splitTabChars s.data).map String.mk

/-- Models Go `strings.ToUpper` (ASCII case mapping, which is all the
2-letter ISO country codes need). -/
def stringsToUpper (s : String) : String :=
  String.mk (s.data.map Char.toUpper)

/-- Models the Go statement `m[k] = append(m[k], v)` on the association
list: append `v` to the first entry with key `k`, or add a new entry at
the end when the key is absent. -/
def mapAppend {α : Type} (m : List (String × ZipCodeLocations α)) (k : String)
    (v : ZipCodeLocation α) : List (String × ZipCodeLocations α) :=
  match m with
  | [] => [(k, [v])]
  | (k₂, vs) :: rest =>
      if k₂ = k then (k₂, vs ++ [v]) :: rest
      else (k₂, vs) :: mapAppend rest k v

/-- Models the Go map read `zc.DatasetList[zipCode]`: the slice stored
under the key, `[]` (nil slice) when the key is absent. -/
def assocGet {α : Type} (m : List (String × ZipCodeLocations α)) (k : String) :
    ZipCodeLocations α :=
  match m.find? (fun p => p.1 = k) with
  | none => []
  | some p => p.2

/-- Models the Go map read with ok-flag `_, exists := zc.DatasetList[zipCode]`. -/
def assocHas {α : Type} (m : List (String × ZipCodeLocations α)) (k : String) : Bool :=
  (m.find? (fun p => p.1 = k)).isSome

/-- Go method `Lookup`: returns the slice for the zipcode together with an
optional error, mirroring the Go multiple-return `(ZipCodeLocations, error)`
(a nil slice is `[]`). -/
def Zipcodes.Lookup {α : Type} (zc : Zipcodes α) (zipCode : String) :
    ZipCodeLocations α × Option LookupError :=
  match zc.DatasetList.find? (fun p => p.1 = zipCode) with
  | none => ([], some LookupError.zipcodeNotFound)
  | some p =>
      if p.2.length > 1 then (p.2, some LookupError.multipleLatLon)
      else (p.2, none)

/-- Go method `IsMulti` on `ZipCodeLocations`. -/
def ZipCodeLocations.IsMulti {α : Type} (zcl : ZipCodeLocations α) : Bool :=
  zcl.length > 1

/-- The `ZipCodeLocation` literal built by Go `loadDataset` from the
split fields of one accepted line and its parsed coordinates. -/
def recordOfRow {α : Type} (splittedLine : List String) (lat lon : α) :
    ZipCodeLocation α :=
  { ZipCode   := splittedLine.getD 1 ""
    PlaceName := splittedLine.getD 2 ""
    AdminName := splittedLine.getD 3 ""
    Lat       := lat
    Lon       := lon
    StateCode := splittedLine.getD 4 "" }

/-- The scan loop of Go `loadDataset` (the `for scanner.Scan()` loop):
processes the lines one by one, threading the `inCountry` flag and the
map being built.  Returns the final map, or the error that aborted the
loop; a `break` returns the map built so far. -/
def scanLines {α : Type} (pf : String → Option α) (wantCountry : Bool)
    (country : String) (inCountry : Bool)
    (acc : List (String × ZipCodeLocations α)) :
    List String → Except LoadError (List (String × ZipCodeLocations α))
  | [] => Except.ok acc
  | line :: rest =>
      let splittedLine := stringsSplitTab line
      if splittedLine.length ≠ 12 then Except.error LoadError.malformedRecord
      else if !wantCountry || splittedLine.getD 0 "" == country then
        match pf (splittedLine.getD 9 "") with
        | none => Except.error (LoadError.numericFormatLat (splittedLine.getD 9 ""))
        | some lat =>
          match pf (splittedLine.getD 10 "") with
          | none => Except.error (LoadError.numericFormatLon (splittedLine.getD 10 ""))
          | some lon =>
              scanLines pf wantCountry country true
                (mapAppend acc (splittedLine.getD 1 "")
                  (recordOfRow splittedLine lat lon)) rest
      else if inCountry && splittedLine.getD 0 "" != country then
        Except.ok acc
      else
        scanLines pf wantCountry country inCountry acc rest

/-- Go function `loadDataset`: validates the country filter, opens the
source, runs the scan loop and checks `scanner.Err()`.  `source` models
the result of `os.Open` (+ scanning), `scanErr` the value of
`scanner.Err()`.  On an open failure the Go code calls `log.Fatal`,
which exits the process: that branch is `LoadResult.fatal`. -/
def loadDataset {α : Type} (pf : String → Option α)
    (source : Except String (List String)) (scanErr : Option String)
    (country : String) : LoadResult α :=
  let wantCountry : Bool := country != ""
  if wantCountry && country.length != 2 then
    LoadResult.err LoadError.configurationError
  else
    let country := stringsToUpper country
    match source with
    | Except.error msg => LoadResult.fatal msg
    | Except.ok lines =>
        match scanLines pf wantCountry country false [] lines with
        | Except.error e => LoadResult.err e
        | Except.ok datasetList =>
            match scanErr with
            | some msg => LoadResult.err (LoadError.ioError msg)
            | none => LoadResult.ok { DatasetList := datasetList }

/-- Go function `LoadDataset`: load with no country filter. -/
def LoadDataset {α : Type} (pf : String → Option α)
    (source : Except String (List String)) (scanErr : Option String) :
    LoadResult α :=
  loadDataset pf source scanErr ("")

/-- Go function `LoadDatasetByCountry`. -/
def LoadDatasetByCountry {α : Type} (pf : String → Option α)
    (source : Except String (List String)) (scanErr : Option String)
    (country : String) : LoadResult α :=
  loadDataset pf source scanErr country

/-- The Go constant `earthRadiusKm = 6371`. -/
noncomputable def earthRadiusKm : ℝ := 6371

/-- The Go constant `earthRadiusMi = 3958`. -/
noncomputable def earthRadiusMi : ℝ := 3958

/-- Go function `degreesToRadians`. -/
noncomputable def degreesToRadians (d : ℝ) : ℝ :=
  d * Real.pi / 180

/-- Go function `hsin`: `math.Pow(math.Sin(t/2), 2)`. -/
noncomputable def hsin (t : ℝ) : ℝ :=
  Real.sin (t / 2) ^ 2

/-- Models the Go library primitive `math.Atan2(y, x)`: the argument of
the point `(x, y)`, in `(-π, π]`. -/
noncomputable def mathAtan2 (y x : ℝ) : ℝ :=
  Complex.arg ⟨x, y⟩

/-- Models the Go library primitive `math.Round`: the nearest integer,
rounding half away from zero. -/
noncomputable def mathRound (x : ℝ) : ℝ :=
  if x < 0 then -((⌊-x + 1 / 2⌋ : ℤ) : ℝ) else ((⌊x + 1 / 2⌋ : ℤ) : ℝ)

/-- Go function `DistanceBetweenPoints`: haversine distance on a sphere
of the given radius, rounded to 2 decimal places. -/
noncomputable def DistanceBetweenPoints
    (latitude1 longitude1 latitude2 longitude2 radius : ℝ) : ℝ :=
  let lat1 := degreesToRadians latitude1
  let lon1 := degreesToRadians longitude1
  let lat2 := degreesToRadians latitude2
  let lon2 := degreesToRadians longitude2
  let diffLat := lat2 - lat1
  let diffLon := lon2 - lon1
  let a := hsin diffLat + Real.cos lat1 * Real.cos lat2 * hsin diffLon
  let c := 2 * mathAtan2 (Real.sqrt a) (Real.sqrt (1 - a))
  let distance := c * radius
  mathRound (distance * 100) / 100

/-- Go method `CalculateDistance`. -/
noncomputable def Zipcodes.CalculateDistance (zc : Zipcodes ℝ)
    (zipcodeLocationA zipcodeLocationB : ZipCodeLocation ℝ) (radius : ℝ) : ℝ :=
  DistanceBetweenPoints zipcodeLocationA.Lat zipcodeLocationA.Lon
    zipcodeLocationB.Lat zipcodeLocationB.Lon radius

/-- Go method `DistanceInKm`. -/
noncomputable def Zipcodes.DistanceInKm (zc : Zipcodes ℝ)
    (zipcodeLocationA zipcodeLocationB : ZipCodeLocation ℝ) : ℝ :=
  zc.CalculateDistance zipcodeLocationA zipcodeLocationB earthRadiusKm

/-- Go method `DistanceInMiles`. -/
noncomputable def Zipcodes.DistanceInMiles (zc : Zipcodes ℝ)
    (zipcodeLocationA zipcodeLocationB : ZipCodeLocation ℝ) : ℝ :=
  zc.CalculateDistance zipcodeLocationA zipcodeLocationB earthRadiusMi

/-- Go method `DistanceInKmToZipCode`. -/
noncomputable def Zipcodes.DistanceInKmToZipCode (zc : Zipcodes ℝ)
    (zipcodeLocation : ZipCodeLocation ℝ) (latitude longitude : ℝ) : ℝ :=
  DistanceBetweenPoints zipcodeLocation.Lat zipcodeLocation.Lon latitude longitude
    earthRadiusKm

/-- Go method `DistanceInMilToZipCode`. -/
noncomputable def Zipcodes.DistanceInMilToZipCode (zc : Zipcodes ℝ)
    (zipcodeLocation : ZipCodeLocation ℝ) (latitude longitude : ℝ) : ℝ :=
  DistanceBetweenPoints zipcodeLocation.Lat zipcodeLocation.Lon latitude longitude
    earthRadiusMi

/-- Go method `FindZipcodesWithinRadius`: nested loops over the map
entries and each entry's slice, appending the codes of records closer
than `maxRadius` and not sharing the origin's code. -/
noncomputable def Zipcodes.FindZipcodesWithinRadius (zc : Zipcodes ℝ)
    (zipcodeLocation : ZipCodeLocation ℝ) (maxRadius earthRadius : ℝ) : List String :=
  zc.DatasetList.foldl (fun zipcodeList elm =>
    elm.2.foldl (fun zipcodeList zcls =>
      if zcls.ZipCode ≠ zipcodeLocation.ZipCode then
        if DistanceBetweenPoints zipcodeLocation.Lat zipcodeLocation.Lon
            zcls.Lat zcls.Lon earthRadius < maxRadius then
          zipcodeList ++ [zcls.ZipCode]
        else zipcodeList
      else zipcodeList) zipcodeList) []

/-- Go method `GetZipcodesWithinKmRadius`. -/
noncomputable def Zipcodes.GetZipcodesWithinKmRadius (zc : Zipcodes ℝ)
    (zipcodeLocation : ZipCodeLocation ℝ) (radius : ℝ) : List String :=
  zc.FindZipcodesWithinRadius zipcodeLocation radius earthRadiusKm

/-- Go method `GetZipcodesWithinMlRadius`. -/
noncomputable def Zipcodes.GetZipcodesWithinMlRadius (zc : Zipcodes ℝ)
    (zipcodeLocation : ZipCodeLocation ℝ) (radius : ℝ) : List String :=
  zc.FindZipcodesWithinRadius zipcodeLocation radius earthRadiusMi

/-- Reference definition following the spec's words: round a value half
away from zero to the nearest integer. -/
noncomputable def specRoundHalfAwayFromZero (x : ℝ) : ℝ :=
  if x < 0 then -((⌊-x + 1 / 2⌋ : ℤ) : ℝ) else ((⌊x + 1 / 2⌋ : ℤ) : ℝ)

/-- Reference definition following the spec's words: round to 2 decimal
places by rounding `value * 100` half away from zero to the nearest
integer and dividing by 100. -/
noncomputable def specRound2 (value : ℝ) : ℝ :=
  specRoundHalfAwayFromZero (value * 100) / 100

/-- Reference definition following the spec's words: the haversine
formula `a = sin²(Δlat/2) + cos(lat1)·cos(lat2)·sin²(Δlon/2)`,
`c = 2·atan2(√a, √(1−a))`, `distance = c·radius`, on points given in
degrees (converted to radians), rounded to 2 decimal places. -/
noncomputable def specHaversineDistance
    (latitude1 longitude1 latitude2 longitude2 radius : ℝ) : ℝ :=
  let lat1 := latitude1 * Real.pi / 180
  let lon1 := longitude1 * Real.pi / 180
  let lat2 := latitude2 * Real.pi / 180
  let lon2 := longitude2 * Real.pi / 180
  let a := Real.sin ((lat2 - lat1) / 2) ^ 2 +
    Real.cos lat1 * Real.cos lat2 * Real.sin ((lon2 - lon1) / 2) ^ 2
  let c := 2 * mathAtan2 (Real.sqrt a) (Real.sqrt (1 - a))
  specRound2 (c * radius)

/-- Reference definition mirroring `scanLines`: the `(key, record)` pairs
the scan loop inserts, in insertion order, on the run that starts in
state `inCountry` (the list is cut short at an aborting or breaking
line, so on a successful scan it is exactly the accepted records). -/
def acceptedRecs {α : Type} (pf : String → Option α) (wantCountry : Bool)
    (country : String) : Bool → List String → List (String × ZipCodeLocation α)
  | _, [] => []
  | inCountry, line :: rest =>
      let splittedLine := stringsSplitTab line
      if splittedLine.length ≠ 12 then []
      else if !wantCountry || splittedLine.getD 0 "" == country then
        match pf (splittedLine.getD 9 "") with
        | none => []
        | some lat =>
          match pf (splittedLine.getD 10 "") with
          | none => []
          | some lon =>
              (splittedLine.getD 1 "", recordOfRow splittedLine lat lon) ::
                acceptedRecs pf wantCountry country true rest
      else if inCountry && splittedLine.getD 0 "" != country then []
      else acceptedRecs pf wantCountry country inCountry rest

/-- Reference definition mirroring `scanLines`: `some ic` when the scan
loop runs through all the given lines without aborting and without
breaking, ending with `inCountry = ic`; `none` when the loop stops on
one of them (error or `break`). -/
def scanState {α : Type} (pf : String → Option α) (wantCountry : Bool)
    (country : String) : Bool → List String → Option Bool
  | ic, [] => some ic
  | ic, line :: rest =>
      let splittedLine := stringsSplitTab line
      if splittedLine.length ≠ 12 then none
      else if !wantCountry || splittedLine.getD 0 "" == country then
        match pf (splittedLine.getD 9 "") with
        | none => none
        | some _ =>
          match pf (splittedLine.getD 10 "") with
          | none => none
          | some _ => scanState pf wantCountry country true rest
      else if ic && splittedLine.getD 0 "" != country then none
      else scanState pf wantCountry country ic rest

/-- The records a full load of `lines` with the given filter inserts for
a given code, in source order: the accepted records whose key is `code`. -/
def recsForCode {α : Type} (pf : String → Option α) (country : String)
    (lines : List String) (code : String) : ZipCodeLocations α :=
  ((acceptedRecs pf (country != "") (stringsToUpper country) false lines).filter
    (fun p => p.1 = code)).map Prod.snd

/-- A tiny concrete coordinate parser used in sanity checks and
witnesses: a finite table standing in for `strconv.ParseFloat`. -/
def pfW (s : String) : Option Int :=
  if s = "51" then some 51
  else if s = "13" then some 13
  else if s = "0" then some 0
  else none

/-- Concrete location fixture for witnesses. -/
def locW (z : String) (lat lon : Int) : ZipCodeLocation Int :=
  { ZipCode := z, PlaceName := "p", AdminName := "a", Lat := lat, Lon := lon,
    StateCode := "s" }

/-- Concrete dataset fixture for witnesses: one unambiguous code and one
code with two records. -/
def zcW : Zipcodes Int :=
  { DatasetList := [("11", [locW ("11") 1 2]), ("22", [locW ("22") 3 4, locW ("22") 5 6])] }

/-- Concrete dataset lines for witnesses (12 tab-separated fields each,
GeoNames layout). -/
def lineDE1 : String := "DE\t01945\tGuteborn\tBrandenburg\tBB\t\t\t\t\t51\t13\t4"

/-- A second line carrying the same postal code as `lineDE1`. -/
def lineDE2 : String := "DE\t01945\tOther\tBrandenburg\tBB\t\t\t\t\t13\t51\t4"

/-- A line for country US. -/
def lineUS : String := "US\t99501\tAnchorage\tAlaska\tAK\t\t\t\t\t51\t13\t4"

/-- A line with fewer than 12 tab-separated fields. -/
def lineBad : String := "DE\tonly\tthree"

/-- A non-matching (US) line with fewer than 12 fields. -/
def lineBadUS : String := "US\tonly"

/-- A line whose latitude field does not parse. -/
def lineBadLat : String := "DE\t01945\tG\tB\tBB\t\t\t\t\tWRONG\t13\t4"

/-- A line whose longitude field does not parse. -/
def lineBadLon : String := "DE\t01945\tG\tB\tBB\t\t\t\t\t51\tWRONG\t4"

/-- A non-matching (US) line whose coordinate fields do not parse. -/
def lineUSBadLat : String := "US\t99501\tA\tAlaska\tAK\t\t\t\t\tWRONG\tWRONG\t4"

/-- A non-matching (US) line whose latitude parses but whose longitude
does not. -/
def lineUSBadLon : String := "US\t99501\tA\tAlaska\tAK\t\t\t\t\t51\tWRONG\t4"

/-- The dataset produced by loading `[lineDE1, lineDE2]` with no filter. -/
def zcC2 : Zipcodes Int :=
  { DatasetList := [("01945",
      [recordOfRow (stringsSplitTab lineDE1) 51 13,
       recordOfRow (stringsSplitTab lineDE2) 13 51])] }

/-- The dataset produced by loading `[lineUS, lineDE1]` with filter `"us"`. -/
def zcUS : Zipcodes Int :=
  { DatasetList := [("99501", [recordOfRow (stringsSplitTab lineUS) 51 13])] }

/-! ## Association-list map lemmas -/

theorem assocGet_nil {α : Type} (k : String) :
    assocGet ([] : List (String × ZipCodeLocations α)) k = [] := rfl

theorem assocGet_cons {α : Type} (k₁ : String) (vs : ZipCodeLocations α)
    (rest : List (String × ZipCodeLocations α)) (k : String) :
    assocGet ((k₁, vs) :: rest) k = if k₁ = k then vs else assocGet rest k := by
  by_cases h : k₁ = k
  · rw [if_pos h]
    unfold assocGet
    rw [List.find?_cons_of_pos _ (by simpa using h)]
  · rw [if_neg h]
    unfold assocGet
    rw [List.find?_cons_of_neg _ (by simpa using h)]

theorem assocGet_mapAppend {α : Type} (m : List (String × ZipCodeLocations α))
    (k k₂ : String) (v : ZipCodeLocation α) :
    assocGet (mapAppend m k v) k₂ =
      if k₂ = k then assocGet m k₂ ++ [v] else assocGet m k₂ := by
  induction m with
  | nil =>
      simp only [mapAppend]
      rw [assocGet_cons]
      by_cases h : k₂ = k
      · simp [h, assocGet_nil]
      · rw [if_neg (fun hh => h hh.symm), if_neg h]
  | cons p rest ih =>
      obtain ⟨k₁, vs⟩ := p
      simp only [mapAppend]
      by_cases h₁ : k₁ = k
      · rw [if_pos h₁, assocGet_cons, assocGet_cons]
        by_cases h₂ : k₁ = k₂
        · have hk : k₂ = k := h₂.symm.trans h₁
          simp [h₂, hk]
        · have hk : k₂ ≠ k := fun hh => h₂ (h₁.trans hh.symm)
          simp [h₂, hk]
      · rw [if_neg h₁, assocGet_cons, assocGet_cons]
        by_cases h₂ : k₁ = k₂
        · have hk : k₂ ≠ k := fun hh => h₁ (h₂.trans hh)
          simp [h₂, hk]
        · simp [h₂, ih]

theorem Lookup_fst {α : Type} (zc : Zipcodes α) (code : String) :
    (zc.Lookup code).1 = assocGet zc.DatasetList code := by
  unfold Zipcodes.Lookup assocGet
  cases h : zc.DatasetList.find? (fun p => p.1 = code) with
  | none => simp
  | some p => by_cases hl : p.2.length > 1 <;> simp [hl]

/-! ## C1: lookup trichotomy -/

/-- C1: for every index and every code, `Lookup` on an absent code fails
with the not-found error and returns no data; on a code whose entry has
exactly one record it returns that one-element slice with no error; on a
code whose entry has two or more records it returns the whole slice
together with the multiple-matches warning. -/
theorem Lookup_trichotomy :
    (∀ (α : Type) (zc : Zipcodes α) (code : String),
      zc.DatasetList.find? (fun p => p.1 = code) = none →
      zc.Lookup code = ([], some LookupError.zipcodeNotFound)) ∧
    (∀ (α : Type) (zc : Zipcodes α) (code : String)
        (k : String) (recs : ZipCodeLocations α),
      zc.DatasetList.find? (fun p => p.1 = code) = some (k, recs) →
      recs.length = 1 →
      zc.Lookup code = (recs, none)) ∧
    (∀ (α : Type) (zc : Zipcodes α) (code : String)
        (k : String) (recs : ZipCodeLocations α),
      zc.DatasetList.find? (fun p => p.1 = code) = some (k, recs) →
      2 ≤ recs.length →
      zc.Lookup code = (recs, some LookupError.multipleLatLon)) := by
  refine ⟨?_, ?_, ?_⟩
  · intro α zc code h
    simp [Zipcodes.Lookup, h]
  · intro α zc code k recs h hl
    simp [Zipcodes.Lookup, h, hl]
  · intro α zc code k recs h hl
    have : recs.length > 1 := by omega
    simp [Zipcodes.Lookup, h, this]

/-- Witness for C1 at a concrete two-key dataset. -/
theorem Lookup_trichotomy_witness :
    Zipcodes.Lookup zcW ("33") = ([], some LookupError.zipcodeNotFound) ∧
    Zipcodes.Lookup zcW ("11") = ([locW ("11") 1 2], none) ∧
    Zipcodes.Lookup zcW ("22") =
      ([locW ("22") 3 4, locW ("22") 5 6], some LookupError.multipleLatLon) :=
  ⟨Lookup_trichotomy.1 Int zcW ("33") (by decide),
   Lookup_trichotomy.2.1 Int zcW ("11") "11" [locW ("11") 1 2] (by decide) (by decide),
   Lookup_trichotomy.2.2 Int zcW ("22") "22" [locW ("22") 3 4, locW ("22") 5 6] (by decide) (by decide)⟩

/-! ## C3: radius search -/

theorem radius_foldl_inner (origin : ZipCodeLocation ℝ) (maxRadius earthRadius : ℝ)
    (l : ZipCodeLocations ℝ) (acc : List String) :
    l.foldl (fun zipcodeList zcls =>
      if zcls.ZipCode ≠ origin.ZipCode then
        if DistanceBetweenPoints origin.Lat origin.Lon zcls.Lat zcls.Lon earthRadius
            < maxRadius then
          zipcodeList ++ [zcls.ZipCode]
        else zipcodeList
      else zipcodeList) acc =
    acc ++ (l.filter (fun zcls =>
      zcls.ZipCode ≠ origin.ZipCode ∧
      DistanceBetweenPoints origin.Lat origin.Lon zcls.Lat zcls.Lon earthRadius
        < maxRadius)).map (fun zcls => zcls.ZipCode) := by
  induction l generalizing acc with
  | nil => simp
  | cons x xs ih =>
      simp only [List.foldl_cons]
      rw [ih]
      by_cases h₁ : x.ZipCode = origin.ZipCode
      · simp [h₁]
      · by_cases h₂ : DistanceBetweenPoints origin.Lat origin.Lon x.Lat x.Lon earthRadius
            < maxRadius
        · simp [h₁, h₂, List.append_assoc]
        · simp [h₁, h₂]

theorem radius_foldl_outer (origin : ZipCodeLocation ℝ) (maxRadius earthRadius : ℝ)
    (entries : List (String × ZipCodeLocations ℝ)) (acc : List String) :
    entries.foldl (fun zipcodeList elm =>
      elm.2.foldl (fun zipcodeList zcls =>
        if zcls.ZipCode ≠ origin.ZipCode then
          if DistanceBetweenPoints origin.Lat origin.Lon zcls.Lat zcls.Lon earthRadius
              < maxRadius then
            zipcodeList ++ [zcls.ZipCode]
          else zipcodeList
        else zipcodeList) zipcodeList) acc =
    acc ++ ((entries.flatMap (fun p => p.2)).filter (fun zcls =>
      zcls.ZipCode ≠ origin.ZipCode ∧
      DistanceBetweenPoints origin.Lat origin.Lon zcls.Lat zcls.Lon earthRadius
        < maxRadius)).map (fun zcls => zcls.ZipCode) := by
  induction entries generalizing acc with
  | nil => simp
  | cons e es ih =>
      simp only [List.foldl_cons]
      rw [radius_foldl_inner, ih]
      simp [List.flatMap_cons, List.filter_append, List.append_assoc]

/-- C3: the radius search scans every record under every key and returns
exactly the codes of the records whose distance from the origin is
strictly below the maximum radius, excluding every record whose postal
code equals the origin's code; in particular the result never contains
the origin's code. -/
theorem FindZipcodesWithinRadius_spec (zc : Zipcodes ℝ) (origin : ZipCodeLocation ℝ)
    (maxRadius earthRadius : ℝ) :
    zc.FindZipcodesWithinRadius origin maxRadius earthRadius =
      ((zc.DatasetList.flatMap (fun p => p.2)).filter (fun zcls =>
        zcls.ZipCode ≠ origin.ZipCode ∧
        DistanceBetweenPoints origin.Lat origin.Lon zcls.Lat zcls.Lon earthRadius
          < maxRadius)).map (fun zcls => zcls.ZipCode) ∧
    (zc.FindZipcodesWithinRadius origin maxRadius earthRadius).all
      (fun c => c ≠ origin.ZipCode) = true := by
  have h1 : zc.FindZipcodesWithinRadius origin maxRadius earthRadius =
      ((zc.DatasetList.flatMap (fun p => p.2)).filter (fun zcls =>
        zcls.ZipCode ≠ origin.ZipCode ∧
        DistanceBetweenPoints origin.Lat origin.Lon zcls.Lat zcls.Lon earthRadius
          < maxRadius)).map (fun zcls => zcls.ZipCode) := by
    unfold Zipcodes.FindZipcodesWithinRadius
    simpa using radius_foldl_outer origin maxRadius earthRadius zc.DatasetList []
  refine ⟨h1, ?_⟩
  rw [h1]
  simp only [List.all_eq_true, List.mem_map, List.mem_filter]
  rintro c ⟨zcls, ⟨_, hpred⟩, rfl⟩
  simp only [decide_eq_true_eq] at hpred ⊢
  exact hpred.1

/-! ## Scan-loop lemmas -/

theorem scanLines_ok_assocGet {α : Type} (pf : String → Option α) (w : Bool) (c : String) :
    ∀ (lines : List String) (ic : Bool) (acc dl : List (String × ZipCodeLocations α)),
    scanLines pf w c ic acc lines = Except.ok dl →
    ∀ k, assocGet dl k = assocGet acc k ++
      ((acceptedRecs pf w c ic lines).filter (fun p => p.1 = k)).map Prod.snd := by
  intro lines
  induction lines with
  | nil =>
      intro ic acc dl h k
      simp only [scanLines] at h
      injection h with h
      subst h
      simp [acceptedRecs]
  | cons line rest ih =>
      intro ic acc dl h k
      simp only [scanLines] at h
      simp only [acceptedRecs]
      by_cases h12 : (stringsSplitTab line).length ≠ 12
      · rw [if_pos h12] at h
        exact absurd h (by simp)
      · rw [if_neg h12] at h
        rw [if_neg h12]
        by_cases hm : (!w || (stringsSplitTab line).getD 0 "" == c) = true
        · rw [if_pos hm] at h
          rw [if_pos hm]
          cases hlat : pf ((stringsSplitTab line).getD 9 "") with
          | none =>
              rw [hlat] at h
              exact absurd h (by simp)
          | some lat =>
              rw [hlat] at h
              cases hlon : pf ((stringsSplitTab line).getD 10 "") with
              | none =>
                  rw [hlon] at h
                  exact absurd h (by simp)
              | some lon =>
                  rw [hlon] at h
                  have hih := ih true
                    (mapAppend acc ((stringsSplitTab line).getD 1 "")
                      (recordOfRow (stringsSplitTab line) lat lon)) dl h k
                  rw [hih, assocGet_mapAppend]
                  set X := (stringsSplitTab line).getD 1 "" with hX
                  by_cases hk : X = k
                  · subst hk
                    simp [List.filter_cons, List.append_assoc]
                  · simp [List.filter_cons, hk, Ne.symm hk]
        · rw [if_neg hm] at h
          rw [if_neg hm]
          by_cases hic : (ic && (stringsSplitTab line).getD 0 "" != c) = true
          · rw [if_pos hic] at h
            injection h with h
            subst h
            rw [if_pos hic]
            simp
          · rw [if_neg hic] at h
            rw [if_neg hic]
            exact ih ic acc dl h k

theorem scanLines_of_scanState {α : Type} (pf : String → Option α) (w : Bool) (c : String) :
    ∀ (pre : List String) (ic : Bool) (acc : List (String × ZipCodeLocations α)) (ic₂ : Bool),
    scanState pf w c ic pre = some ic₂ →
    ∃ acc₂, ∀ rest, scanLines pf w c ic acc (pre ++ rest) = scanLines pf w c ic₂ acc₂ rest := by
  intro pre
  induction pre with
  | nil =>
      intro ic acc ic₂ h
      simp only [scanState] at h
      injection h with h
      subst h
      exact ⟨acc, fun rest => rfl⟩
  | cons line pre ih =>
      intro ic acc ic₂ h
      simp only [scanState] at h
      by_cases h12 : (stringsSplitTab line).length ≠ 12
      · rw [if_pos h12] at h
        exact absurd h (by simp)
      · rw [if_neg h12] at h
        by_cases hm : (!w || (stringsSplitTab line).getD 0 "" == c) = true
        · rw [if_pos hm] at h
          cases hlat : pf ((stringsSplitTab line).getD 9 "") with
          | none =>
              rw [hlat] at h
              exact absurd h (by simp)
          | some lat =>
              rw [hlat] at h
              cases hlon : pf ((stringsSplitTab line).getD 10 "") with
              | none =>
                  rw [hlon] at h
                  exact absurd h (by simp)
              | some lon =>
                  rw [hlon] at h
                  obtain ⟨acc₂, hacc⟩ := ih true
                    (mapAppend acc ((stringsSplitTab line).getD 1 "")
                      (recordOfRow (stringsSplitTab line) lat lon)) ic₂ h
                  refine ⟨acc₂, fun rest => ?_⟩
                  rw [List.cons_append]
                  simp only [scanLines]
                  rw [if_neg h12, if_pos hm, hlat, hlon]
                  exact hacc rest
        · rw [if_neg hm] at h
          by_cases hic : (ic && (stringsSplitTab line).getD 0 "" != c) = true
          · rw [if_pos hic] at h
            exact absurd h (by simp)
          · rw [if_neg hic] at h
            obtain ⟨acc₂, hacc⟩ := ih ic acc ic₂ h
            refine ⟨acc₂, fun rest => ?_⟩
            rw [List.cons_append]
            simp only [scanLines]
            rw [if_neg h12, if_neg hm, if_neg hic]
            exact hacc rest

theorem loadDataset_eq_scan {α : Type} (pf : String → Option α) (lines : List String)
    (scanErr : Option String) (country : String)
    (hcfg : (country != "" && country.length != 2) = false) :
    loadDataset pf (Except.ok lines) scanErr country =
      match scanLines pf (country != "") (stringsToUpper country) false [] lines with
      | Except.error e => LoadResult.err e
      | Except.ok dl =>
          match scanErr with
          | some msg => LoadResult.err (LoadError.ioError msg)
          | none => LoadResult.ok { DatasetList := dl } := by
  simp only [loadDataset, hcfg]
  rfl

/-! ## C2: round-trip lookup -/

/-- C2: for every source accepted by the loader and every code that
appears on at least one accepted line, `Lookup` returns a non-empty
slice containing exactly the records built from the accepted source
lines carrying that code, in source-file order. -/
theorem loadDataset_Lookup_roundtrip {α : Type} (pf : String → Option α)
    (lines : List String) (scanErr : Option String) (country code : String)
    (zc : Zipcodes α)
    (hok : loadDataset pf (Except.ok lines) scanErr country = LoadResult.ok zc)
    (hne : recsForCode pf country lines code ≠ []) :
    (zc.Lookup code).1 = recsForCode pf country lines code ∧
    (zc.Lookup code).1 ≠ [] := by
  by_cases hcfg : (country != "" && country.length != 2) = true
  · rw [loadDataset] at hok
    simp only [hcfg, if_true] at hok
    exact absurd hok (by simp)
  · have hcfg₂ : (country != "" && country.length != 2) = false := by
      revert hcfg
      cases country != "" && country.length != 2 <;> simp
    rw [loadDataset_eq_scan pf lines scanErr country hcfg₂] at hok
    cases hscan : scanLines pf (country != "") (stringsToUpper country) false [] lines with
    | error e =>
        rw [hscan] at hok
        exact absurd hok (by simp)
    | ok dl =>
        rw [hscan] at hok
        cases scanErr with
        | some msg => exact absurd hok (by simp)
        | none =>
            have hzc : zc = { DatasetList := dl } := by
              cases hok
              rfl
            subst hzc
            have hget := scanLines_ok_assocGet pf (country != "") (stringsToUpper country)
              lines false [] dl hscan code
            rw [assocGet_nil] at hget
            simp only [List.nil_append] at hget
            constructor
            · rw [Lookup_fst]
              exact hget
            · rw [Lookup_fst, hget]
              exact hne

/-- Witness for C2 at a concrete two-line dataset sharing one code. -/
theorem loadDataset_Lookup_roundtrip_witness :
    (Zipcodes.Lookup zcC2 ("01945")).1 = recsForCode pfW ("") [lineDE1, lineDE2] "01945" ∧
    (Zipcodes.Lookup zcC2 ("01945")).1 ≠ [] :=
  loadDataset_Lookup_roundtrip pfW [lineDE1, lineDE2] none ("") "01945" zcC2
    (by decide) (by decide)

/-! ## C4: malformed input rejected wholesale -/

theorem cfgFalse_of_valid (country : String) (h : country = "" ∨ country.length = 2) :
    (country != "" && country.length != 2) = false := by
  rcases h with h | h
  · subst h; rfl
  · simp [h]

theorem loadDataset_scan_error {α : Type} (pf : String → Option α)
    (scanErr : Option String) (country : String) (lines : List String) (e : LoadError)
    (hcfg : (country != "" && country.length != 2) = false)
    (hscan : scanLines pf (country != "") (stringsToUpper country) false [] lines =
      Except.error e) :
    loadDataset pf (Except.ok lines) scanErr country = LoadResult.err e := by
  rw [loadDataset_eq_scan pf lines scanErr country hcfg, hscan]

theorem scanLines_cons_malformed {α : Type} (pf : String → Option α) (w : Bool)
    (c : String) (ic : Bool) (acc : List (String × ZipCodeLocations α))
    (line : String) (rest : List String)
    (h : (stringsSplitTab line).length ≠ 12) :
    scanLines pf w c ic acc (line :: rest) = Except.error LoadError.malformedRecord := by
  simp only [scanLines]
  rw [if_pos h]

theorem scanLines_cons_badLat {α : Type} (pf : String → Option α) (w : Bool)
    (c : String) (ic : Bool) (acc : List (String × ZipCodeLocations α))
    (line : String) (rest : List String)
    (h12 : (stringsSplitTab line).length = 12)
    (hm : (!w || (stringsSplitTab line).getD 0 "" == c) = true)
    (hlat : pf ((stringsSplitTab line).getD 9 "") = none) :
    scanLines pf w c ic acc (line :: rest) =
      Except.error (LoadError.numericFormatLat ((stringsSplitTab line).getD 9 "")) := by
  simp only [scanLines]
  rw [if_neg (fun hn => hn h12), if_pos hm, hlat]

theorem scanLines_cons_badLon {α : Type} (pf : String → Option α) (w : Bool)
    (c : String) (ic : Bool) (acc : List (String × ZipCodeLocations α))
    (line : String) (rest : List String) (lat : α)
    (h12 : (stringsSplitTab line).length = 12)
    (hm : (!w || (stringsSplitTab line).getD 0 "" == c) = true)
    (hlat : pf ((stringsSplitTab line).getD 9 "") = some lat)
    (hlon : pf ((stringsSplitTab line).getD 10 "") = none) :
    scanLines pf w c ic acc (line :: rest) =
      Except.error (LoadError.numericFormatLon ((stringsSplitTab line).getD 10 "")) := by
  simp only [scanLines]
  rw [if_neg (fun hn => hn h12), if_pos hm, hlat, hlon]

/-- C4: with a valid filter argument, reaching a line with fewer than 12
tab-separated fields aborts the whole load with the malformed-record
error, and reaching an accepted line whose latitude or longitude field
does not parse aborts it with the numeric-format error naming the
offending field value; in each case no dataset is returned. -/
theorem loadDataset_rejects_malformed :
    (∀ (α : Type) (pf : String → Option α) (scanErr : Option String) (country : String)
        (pre : List String) (line : String) (post : List String) (ic₂ : Bool),
      country = "" ∨ country.length = 2 →
      scanState pf (country != "") (stringsToUpper country) false pre = some ic₂ →
      (stringsSplitTab line).length < 12 →
      loadDataset pf (Except.ok (pre ++ line :: post)) scanErr country =
        LoadResult.err LoadError.malformedRecord) ∧
    (∀ (α : Type) (pf : String → Option α) (scanErr : Option String) (country : String)
        (pre : List String) (line : String) (post : List String) (ic₂ : Bool),
      country = "" ∨ country.length = 2 →
      scanState pf (country != "") (stringsToUpper country) false pre = some ic₂ →
      (stringsSplitTab line).length = 12 →
      (!(country != "") || (stringsSplitTab line).getD 0 "" == stringsToUpper country) = true →
      pf ((stringsSplitTab line).getD 9 "") = none →
      loadDataset pf (Except.ok (pre ++ line :: post)) scanErr country =
        LoadResult.err (LoadError.numericFormatLat ((stringsSplitTab line).getD 9 ""))) ∧
    (∀ (α : Type) (pf : String → Option α) (scanErr : Option String) (country : String)
        (pre : List String) (line : String) (post : List String) (ic₂ : Bool) (lat : α),
      country = "" ∨ country.length = 2 →
      scanState pf (country != "") (stringsToUpper country) false pre = some ic₂ →
      (stringsSplitTab line).length = 12 →
      (!(country != "") || (stringsSplitTab line).getD 0 "" == stringsToUpper country) = true →
      pf ((stringsSplitTab line).getD 9 "") = some lat →
      pf ((stringsSplitTab line).getD 10 "") = none →
      loadDataset pf (Except.ok (pre ++ line :: post)) scanErr country =
        LoadResult.err (LoadError.numericFormatLon ((stringsSplitTab line).getD 10 ""))) := by
  refine ⟨?_, ?_, ?_⟩
  · intro α pf scanErr country pre line post ic₂ hc hpre h12
    obtain ⟨acc₂, hacc⟩ := scanLines_of_scanState pf (country != "") (stringsToUpper country)
      pre false [] ic₂ hpre
    refine loadDataset_scan_error pf scanErr country _ _ (cfgFalse_of_valid country hc) ?_
    rw [hacc (line :: post)]
    exact scanLines_cons_malformed pf _ _ _ _ line post (by omega)
  · intro α pf scanErr country pre line post ic₂ hc hpre h12 hm hlat
    obtain ⟨acc₂, hacc⟩ := scanLines_of_scanState pf (country != "") (stringsToUpper country)
      pre false [] ic₂ hpre
    refine loadDataset_scan_error pf scanErr country _ _ (cfgFalse_of_valid country hc) ?_
    rw [hacc (line :: post)]
    exact scanLines_cons_badLat pf _ _ _ _ line post h12 hm hlat
  · intro α pf scanErr country pre line post ic₂ lat hc hpre h12 hm hlat hlon
    obtain ⟨acc₂, hacc⟩ := scanLines_of_scanState pf (country != "") (stringsToUpper country)
      pre false [] ic₂ hpre
    refine loadDataset_scan_error pf scanErr country _ _ (cfgFalse_of_valid country hc) ?_
    rw [hacc (line :: post)]
    exact scanLines_cons_badLon pf _ _ _ _ line post lat h12 hm hlat hlon

/-- Witness for C4 at concrete malformed datasets. -/
theorem loadDataset_rejects_malformed_witness :
    loadDataset pfW (Except.ok [lineDE1, lineBad]) none ("") =
      LoadResult.err LoadError.malformedRecord ∧
    loadDataset pfW (Except.ok [lineDE1, lineBadLat]) none ("") =
      LoadResult.err (LoadError.numericFormatLat ((stringsSplitTab lineBadLat).getD 9 "")) ∧
    loadDataset pfW (Except.ok [lineDE1, lineBadLon]) none ("") =
      LoadResult.err (LoadError.numericFormatLon ((stringsSplitTab lineBadLon).getD 10 "")) :=
  ⟨loadDataset_rejects_malformed.1 Int pfW none ("") [lineDE1] lineBad [] true
      (Or.inl rfl) (by decide) (by decide),
   loadDataset_rejects_malformed.2.1 Int pfW none ("") [lineDE1] lineBadLat [] true
      (Or.inl rfl) (by decide) (by decide) (by decide) (by decide),
   loadDataset_rejects_malformed.2.2 Int pfW none ("") [lineDE1] lineBadLon [] true 51
      (Or.inl rfl) (by decide) (by decide) (by decide) (by decide) (by decide)⟩

/-! ## C5: country filter -/

theorem mem_mapAppend {α : Type} (m : List (String × ZipCodeLocations α))
    (k : String) (v : ZipCodeLocation α) :
    ∀ p ∈ mapAppend m k v, ∀ r ∈ p.2, (∃ q ∈ m, r ∈ q.2) ∨ r = v := by
  induction m with
  | nil =>
      intro p hp r hr
      simp only [mapAppend, List.mem_singleton] at hp
      subst hp
      simp only [List.mem_singleton] at hr
      exact Or.inr hr
  | cons q rest ih =>
      obtain ⟨k₁, vs⟩ := q
      simp only [mapAppend]
      by_cases h : k₁ = k
      · rw [if_pos h]
        intro p hp r hr
        rcases List.mem_cons.1 hp with hp | hp
        · subst hp
          rcases List.mem_append.1 hr with hr | hr
          · exact Or.inl ⟨(k₁, vs), List.mem_cons_self _ _, hr⟩
          · exact Or.inr (List.mem_singleton.1 hr)
        · exact Or.inl ⟨p, List.mem_cons_of_mem _ hp, hr⟩
      · rw [if_neg h]
        intro p hp r hr
        rcases List.mem_cons.1 hp with hp | hp
        · subst hp
          exact Or.inl ⟨(k₁, vs), List.mem_cons_self _ _, hr⟩
        · rcases ih p hp r hr with ⟨q₂, hq₂, hrq⟩ | hv
          · exact Or.inl ⟨q₂, List.mem_cons_of_mem _ hq₂, hrq⟩
          · exact Or.inr hv

theorem scanLines_ok_mem {α : Type} (pf : String → Option α) (w : Bool) (c : String) :
    ∀ (lines : List String) (ic : Bool) (acc dl : List (String × ZipCodeLocations α)),
    scanLines pf w c ic acc lines = Except.ok dl →
    ∀ p ∈ dl, ∀ r ∈ p.2,
      (∃ q ∈ acc, r ∈ q.2) ∨ ∃ kr ∈ acceptedRecs pf w c ic lines, kr.2 = r := by
  intro lines
  induction lines with
  | nil =>
      intro ic acc dl h p hp r hr
      simp only [scanLines] at h
      injection h with h
      subst h
      exact Or.inl ⟨p, hp, hr⟩
  | cons line rest ih =>
      intro ic acc dl h p hp r hr
      simp only [scanLines] at h
      simp only [acceptedRecs]
      by_cases h12 : (stringsSplitTab line).length ≠ 12
      · rw [if_pos h12] at h
        exact absurd h (by simp)
      · rw [if_neg h12] at h
        rw [if_neg h12]
        by_cases hm : (!w || (stringsSplitTab line).getD 0 "" == c) = true
        · rw [if_pos hm] at h
          rw [if_pos hm]
          cases hlat : pf ((stringsSplitTab line).getD 9 "") with
          | none =>
              rw [hlat] at h
              exact absurd h (by simp)
          | some lat =>
              rw [hlat] at h
              cases hlon : pf ((stringsSplitTab line).getD 10 "") with
              | none =>
                  rw [hlon] at h
                  exact absurd h (by simp)
              | some lon =>
                  rw [hlon] at h
                  rcases ih true _ dl h p hp r hr with ⟨q, hq, hrq⟩ | ⟨kr, hkr, hkrr⟩
                  · rcases mem_mapAppend acc _ _ q hq r hrq with ⟨q₂, hq₂, hrq₂⟩ | hv
                    · exact Or.inl ⟨q₂, hq₂, hrq₂⟩
                    · exact Or.inr ⟨((stringsSplitTab line).getD 1 "",
                        recordOfRow (stringsSplitTab line) lat lon),
                        List.mem_cons_self _ _, hv.symm⟩
                  · exact Or.inr ⟨kr, List.mem_cons_of_mem _ hkr, hkrr⟩
        · rw [if_neg hm] at h
          rw [if_neg hm]
          by_cases hic : (ic && (stringsSplitTab line).getD 0 "" != c) = true
          · rw [if_pos hic] at h
            injection h with h
            subst h
            exact Or.inl ⟨p, hp, hr⟩
          · rw [if_neg hic] at h
            rw [if_neg hic]
            exact ih ic acc dl h p hp r hr

theorem acceptedRecs_country {α : Type} (pf : String → Option α) (c : String) :
    ∀ (lines : List String) (ic : Bool),
    ∀ kr ∈ acceptedRecs pf true c ic lines,
    ∃ line ∈ lines, (stringsSplitTab line).length = 12 ∧
      (stringsSplitTab line).getD 0 "" = c ∧
      ∃ lat lon, pf ((stringsSplitTab line).getD 9 "") = some lat ∧
        pf ((stringsSplitTab line).getD 10 "") = some lon ∧
        kr = ((stringsSplitTab line).getD 1 "",
          recordOfRow (stringsSplitTab line) lat lon) := by
  intro lines
  induction lines with
  | nil =>
      intro ic kr hkr
      simp [acceptedRecs] at hkr
  | cons line rest ih =>
      intro ic kr hkr
      simp only [acceptedRecs, Bool.not_true, Bool.false_or] at hkr
      by_cases h12 : (stringsSplitTab line).length ≠ 12
      · rw [if_pos h12] at hkr
        simp at hkr
      · rw [if_neg h12] at hkr
        by_cases hm : ((stringsSplitTab line).getD 0 "" == c) = true
        · rw [if_pos hm] at hkr
          cases hlat : pf ((stringsSplitTab line).getD 9 "") with
          | none =>
              rw [hlat] at hkr
              simp at hkr
          | some lat =>
              rw [hlat] at hkr
              cases hlon : pf ((stringsSplitTab line).getD 10 "") with
              | none =>
                  rw [hlon] at hkr
                  simp at hkr
              | some lon =>
                  rw [hlon] at hkr
                  rcases List.mem_cons.1 hkr with hkr | hkr
                  · exact ⟨line, List.mem_cons_self _ _, by omega,
                      beq_iff_eq.1 hm, lat, lon, hlat, hlon, hkr⟩
                  · obtain ⟨l₂, hl₂, hrest⟩ := ih true kr hkr
                    exact ⟨l₂, List.mem_cons_of_mem _ hl₂, hrest⟩
        · rw [if_neg hm] at hkr
          by_cases hic : (ic && (stringsSplitTab line).getD 0 "" != c) = true
          · rw [if_pos hic] at hkr
            simp at hkr
          · rw [if_neg hic] at hkr
            obtain ⟨l₂, hl₂, hrest⟩ := ih ic kr hkr
            exact ⟨l₂, List.mem_cons_of_mem _ hl₂, hrest⟩

/-- C5: a supplied country filter that is not exactly 2 characters makes
the load fail with the configuration error; with a 2-character filter
the returned index contains only records built from source lines whose
country field equals the upper-cased filter. -/
theorem loadDataset_country_filter :
    (∀ (α : Type) (pf : String → Option α) (source : Except String (List String))
        (scanErr : Option String) (country : String),
      country ≠ "" → country.length ≠ 2 →
      loadDataset pf source scanErr country =
        LoadResult.err LoadError.configurationError) ∧
    (∀ (α : Type) (pf : String → Option α) (lines : List String)
        (scanErr : Option String) (country : String) (zc : Zipcodes α),
      country.length = 2 →
      loadDataset pf (Except.ok lines) scanErr country = LoadResult.ok zc →
      ∀ p ∈ zc.DatasetList, ∀ r ∈ p.2, ∃ line ∈ lines,
        (stringsSplitTab line).getD 0 "" = stringsToUpper country ∧
        ∃ lat lon, pf ((stringsSplitTab line).getD 9 "") = some lat ∧
          pf ((stringsSplitTab line).getD 10 "") = some lon ∧
          r = recordOfRow (stringsSplitTab line) lat lon) := by
  constructor
  · intro α pf source scanErr country h1 h2
    have hb : (country != "" && country.length != 2) = true := by
      simp [h1, h2]
    simp [loadDataset, hb]
  · intro α pf lines scanErr country zc hlen hok
    have hw : (country != "") = true := by
      simp only [bne_iff_ne, ne_eq]
      intro h
      subst h
      simp at hlen
    have hcfg₂ : (country != "" && country.length != 2) = false := by
      simp [hlen]
    rw [loadDataset_eq_scan pf lines scanErr country hcfg₂] at hok
    cases hscan : scanLines pf (country != "") (stringsToUpper country) false [] lines with
    | error e =>
        rw [hscan] at hok
        exact absurd hok (by simp)
    | ok dl =>
        rw [hscan] at hok
        cases scanErr with
        | some msg => exact absurd hok (by simp)
        | none =>
            have hzc : zc = { DatasetList := dl } := by
              cases hok
              rfl
            subst hzc
            intro p hp r hr
            rcases scanLines_ok_mem pf (country != "") (stringsToUpper country)
                lines false [] dl hscan p hp r hr with ⟨q, hq, _⟩ | ⟨kr, hkr, hkrr⟩
            · simp at hq
            · rw [hw] at hkr
              obtain ⟨line, hline, _, hc0, lat, lon, hlat, hlon, hkr₂⟩ :=
                acceptedRecs_country pf (stringsToUpper country) lines false kr hkr
              refine ⟨line, hline, hc0, lat, lon, hlat, hlon, ?_⟩
              rw [← hkrr, hkr₂]

/-- Witness for C5: a 3-letter filter is rejected; loading with filter
string in lower case keeps exactly the matching-country records. -/
theorem loadDataset_country_filter_witness :
    loadDataset pfW (Except.ok [lineUS]) none ("USA") =
      LoadResult.err LoadError.configurationError ∧
    ∃ line ∈ [lineUS, lineDE1],
      (stringsSplitTab line).getD 0 "" = stringsToUpper ("us") ∧
      ∃ lat lon, pfW ((stringsSplitTab line).getD 9 "") = some lat ∧
        pfW ((stringsSplitTab line).getD 10 "") = some lon ∧
        recordOfRow (stringsSplitTab lineUS) 51 13 =
          recordOfRow (stringsSplitTab line) lat lon :=
  ⟨loadDataset_country_filter.1 Int pfW (Except.ok [lineUS]) none ("USA")
      (by decide) (by decide),
   loadDataset_country_filter.2 Int pfW [lineUS, lineDE1] none ("us") zcUS
      (by decide) (by decide)
      ("99501", [recordOfRow (stringsSplitTab lineUS) 51 13]) (by decide)
      (recordOfRow (stringsSplitTab lineUS) 51 13) (by decide)⟩

/-! ## C6: early exit on country change -/

/-- C6: with an active 2-character filter, a non-matching line is skipped
while no matching line has been accepted yet; once acceptance has
started, the first non-matching line terminates the scan: the load of
the whole input equals the load of the prefix before that line, and it
succeeds without error (silent truncation). -/
theorem loadDataset_early_exit :
    (∀ (α : Type) (pf : String → Option α) (country line : String)
        (rest : List String) (acc : List (String × ZipCodeLocations α)),
      country.length = 2 →
      (stringsSplitTab line).length = 12 →
      ((stringsSplitTab line).getD 0 "" == stringsToUpper country) = false →
      scanLines pf (country != "") (stringsToUpper country) false acc (line :: rest) =
        scanLines pf (country != "") (stringsToUpper country) false acc rest) ∧
    (∀ (α : Type) (pf : String → Option α) (country line : String)
        (pre post : List String),
      country.length = 2 →
      scanState pf (country != "") (stringsToUpper country) false pre = some true →
      (stringsSplitTab line).length = 12 →
      ((stringsSplitTab line).getD 0 "" == stringsToUpper country) = false →
      loadDataset pf (Except.ok (pre ++ line :: post)) none country =
        loadDataset pf (Except.ok pre) none country ∧
      ∃ zc, loadDataset pf (Except.ok pre) none country = LoadResult.ok zc) := by
  constructor
  · intro α pf country line rest acc hlen h12 hm
    have hw : (country != "") = true := by
      simp only [bne_iff_ne, ne_eq]
      intro h
      subst h
      simp at hlen
    simp only [scanLines]
    rw [if_neg (fun hn => hn h12), if_neg (by rw [hw, hm]; simp),
      if_neg (by simp)]
  · intro α pf country line pre post hlen hpre h12 hm
    have hw : (country != "") = true := by
      simp only [bne_iff_ne, ne_eq]
      intro h
      subst h
      simp at hlen
    have hcfg₂ : (country != "" && country.length != 2) = false := by
      simp [hlen]
    obtain ⟨acc₂, hacc⟩ := scanLines_of_scanState pf (country != "")
      (stringsToUpper country) pre false [] true hpre
    have hbreak : scanLines pf (country != "") (stringsToUpper country) true acc₂
        (line :: post) = Except.ok acc₂ := by
      simp only [scanLines]
      have hbne : ((stringsSplitTab line).getD 0 "" != stringsToUpper country) = true := by
        rw [bne, hm]
        rfl
      rw [if_neg (fun hn => hn h12), if_neg (by rw [hw, hm]; simp),
        if_pos (by rw [Bool.true_and]; exact hbne)]
    have hfull : scanLines pf (country != "") (stringsToUpper country) false []
        (pre ++ line :: post) = Except.ok acc₂ := by
      rw [hacc (line :: post), hbreak]
    have hpre₂ : scanLines pf (country != "") (stringsToUpper country) false []
        pre = Except.ok acc₂ := by
      have h := hacc []
      rw [List.append_nil] at h
      rw [h]
      simp [scanLines]
    constructor
    · rw [loadDataset_eq_scan pf _ none country hcfg₂,
        loadDataset_eq_scan pf pre none country hcfg₂, hfull, hpre₂]
    · exact ⟨{ DatasetList := acc₂ },
        by rw [loadDataset_eq_scan pf pre none country hcfg₂, hpre₂]⟩

/-- Witness for C6: a US line is skipped before any DE line is accepted,
and ends the scan once a DE line has been accepted, silently dropping a
later DE line. -/
theorem loadDataset_early_exit_witness :
    scanLines pfW ("DE" != "") (stringsToUpper ("DE")) false [] [lineUS, lineDE1] =
      scanLines pfW ("DE" != "") (stringsToUpper ("DE")) false [] [lineDE1] ∧
    loadDataset pfW (Except.ok [lineDE1, lineUS, lineDE2]) none ("DE") =
      loadDataset pfW (Except.ok [lineDE1]) none ("DE") ∧
    ∃ zc, loadDataset pfW (Except.ok [lineDE1]) none ("DE") = LoadResult.ok zc :=
  ⟨loadDataset_early_exit.1 Int pfW ("DE") lineUS [lineDE1] []
      (by decide) (by decide) (by decide),
   (loadDataset_early_exit.2 Int pfW ("DE") lineUS [lineDE1] [lineDE2]
      (by decide) (by decide) (by decide) (by decide)).1,
   (loadDataset_early_exit.2 Int pfW ("DE") lineUS [lineDE1] [lineDE2]
      (by decide) (by decide) (by decide) (by decide)).2⟩

/-! ## C10: skipped lines' coordinates never validated -/

/-- C10: with an active filter, a non-matching line whose latitude or
longitude field does not parse still does not fail the load: it is
skipped when no matching line has been accepted yet, and it terminates
the scan without error when acceptance had started; the 12-field count
check, by contrast, is applied to every scanned line before the filter. -/
theorem scanLines_skipped_not_parsed :
    (∀ (α : Type) (pf : String → Option α) (country line : String)
        (rest : List String) (acc : List (String × ZipCodeLocations α)),
      country.length = 2 →
      (stringsSplitTab line).length = 12 →
      ((stringsSplitTab line).getD 0 "" == stringsToUpper country) = false →
      pf ((stringsSplitTab line).getD 9 "") = none ∨
        pf ((stringsSplitTab line).getD 10 "") = none →
      scanLines pf (country != "") (stringsToUpper country) false acc (line :: rest) =
        scanLines pf (country != "") (stringsToUpper country) false acc rest) ∧
    (∀ (α : Type) (pf : String → Option α) (country line : String)
        (rest : List String) (acc : List (String × ZipCodeLocations α)),
      country.length = 2 →
      (stringsSplitTab line).length = 12 →
      ((stringsSplitTab line).getD 0 "" == stringsToUpper country) = false →
      pf ((stringsSplitTab line).getD 9 "") = none ∨
        pf ((stringsSplitTab line).getD 10 "") = none →
      scanLines pf (country != "") (stringsToUpper country) true acc (line :: rest) =
        Except.ok acc) ∧
    (∀ (α : Type) (pf : String → Option α) (w : Bool) (c : String) (ic : Bool)
        (acc : List (String × ZipCodeLocations α)) (line : String)
        (rest : List String),
      (stringsSplitTab line).length ≠ 12 →
      scanLines pf w c ic acc (line :: rest) =
        Except.error LoadError.malformedRecord) := by
  refine ⟨?_, ?_, ?_⟩
  · intro α pf country line rest acc hlen h12 hm _
    have hw : (country != "") = true := by
      simp only [bne_iff_ne, ne_eq]
      intro h
      subst h
      simp at hlen
    simp only [scanLines]
    rw [if_neg (fun hn => hn h12), if_neg (by rw [hw, hm]; simp),
      if_neg (by simp)]
  · intro α pf country line rest acc hlen h12 hm _
    have hw : (country != "") = true := by
      simp only [bne_iff_ne, ne_eq]
      intro h
      subst h
      simp at hlen
    have hbne : ((stringsSplitTab line).getD 0 "" != stringsToUpper country) = true := by
      rw [bne, hm]
      rfl
    simp only [scanLines]
    rw [if_neg (fun hn => hn h12), if_neg (by rw [hw, hm]; simp),
      if_pos (by rw [Bool.true_and]; exact hbne)]
  · intro α pf w c ic acc line rest h12
    exact scanLines_cons_malformed pf w c ic acc line rest h12

/-- Witness for C10: under filter DE, a US line with an unparseable
latitude, and a US line with a parseable latitude but unparseable
longitude, are each skipped (or end the scan) without a numeric-format
error, while a short US line still aborts with the malformed-record
error. -/
theorem scanLines_skipped_not_parsed_witness :
    scanLines pfW ("DE" != "") (stringsToUpper ("DE")) false []
        [lineUSBadLat, lineDE1] =
      scanLines pfW ("DE" != "") (stringsToUpper ("DE")) false [] [lineDE1] ∧
    scanLines pfW ("DE" != "") (stringsToUpper ("DE")) false []
        [lineUSBadLon, lineDE1] =
      scanLines pfW ("DE" != "") (stringsToUpper ("DE")) false [] [lineDE1] ∧
    scanLines pfW ("DE" != "") (stringsToUpper ("DE")) true []
        [lineUSBadLat, lineDE1] = Except.ok [] ∧
    scanLines pfW ("DE" != "") (stringsToUpper ("DE")) true []
        [lineUSBadLon, lineDE1] = Except.ok [] ∧
    scanLines pfW true (stringsToUpper ("DE")) false [] [lineBadUS, lineDE1] =
      Except.error LoadError.malformedRecord :=
  ⟨scanLines_skipped_not_parsed.1 Int pfW ("DE") lineUSBadLat [lineDE1] []
      (by decide) (by decide) (by decide) (Or.inl (by decide)),
   scanLines_skipped_not_parsed.1 Int pfW ("DE") lineUSBadLon [lineDE1] []
      (by decide) (by decide) (by decide) (Or.inr (by decide)),
   scanLines_skipped_not_parsed.2.1 Int pfW ("DE") lineUSBadLat [lineDE1] []
      (by decide) (by decide) (by decide) (Or.inl (by decide)),
   scanLines_skipped_not_parsed.2.1 Int pfW ("DE") lineUSBadLon [lineDE1] []
      (by decide) (by decide) (by decide) (Or.inr (by decide)),
   scanLines_skipped_not_parsed.2.2 Int pfW true (stringsToUpper ("DE")) false []
      lineBadUS [lineDE1] (by decide)⟩

/-! ## C7: haversine formula, radius constants, rounding -/

/-- C7: the distance primitive computes the haversine formula of the
spec with the stated rounding to 2 decimal places, and the kilometer and
mile entry points use it with Earth radii 6371 and 3958. -/
theorem DistanceBetweenPoints_spec (zc : Zipcodes ℝ) (A B : ZipCodeLocation ℝ)
    (lat1 lon1 lat2 lon2 radius latp lonp : ℝ) :
    DistanceBetweenPoints lat1 lon1 lat2 lon2 radius =
      specHaversineDistance lat1 lon1 lat2 lon2 radius ∧
    earthRadiusKm = 6371 ∧
    earthRadiusMi = 3958 ∧
    zc.DistanceInKm A B = specHaversineDistance A.Lat A.Lon B.Lat B.Lon 6371 ∧
    zc.DistanceInMiles A B = specHaversineDistance A.Lat A.Lon B.Lat B.Lon 3958 ∧
    zc.DistanceInKmToZipCode A latp lonp =
      specHaversineDistance A.Lat A.Lon latp lonp 6371 ∧
    zc.DistanceInMilToZipCode A latp lonp =
      specHaversineDistance A.Lat A.Lon latp lonp 3958 :=
  ⟨rfl, rfl, rfl, rfl, rfl, rfl, rfl⟩

/-! ## C9: distance symmetry -/

theorem hsin_sub_comm (a b : ℝ) : hsin (a - b) = hsin (b - a) := by
  unfold hsin
  rw [show (a - b) / 2 = -((b - a) / 2) by ring, Real.sin_neg]
  ring

/-- C9: the haversine distance and the record-to-record kilometer and
mile distances are symmetric in their two points. -/
theorem DistanceBetweenPoints_symm (zc : Zipcodes ℝ) (A B : ZipCodeLocation ℝ)
    (lat1 lon1 lat2 lon2 radius : ℝ) :
    DistanceBetweenPoints lat1 lon1 lat2 lon2 radius =
      DistanceBetweenPoints lat2 lon2 lat1 lon1 radius ∧
    zc.DistanceInKm A B = zc.DistanceInKm B A ∧
    zc.DistanceInMiles A B = zc.DistanceInMiles B A := by
  have base : ∀ x₁ y₁ x₂ y₂ r : ℝ,
      DistanceBetweenPoints x₁ y₁ x₂ y₂ r = DistanceBetweenPoints x₂ y₂ x₁ y₁ r := by
    intro x₁ y₁ x₂ y₂ r
    simp only [DistanceBetweenPoints]
    have key : hsin (degreesToRadians x₂ - degreesToRadians x₁) +
        Real.cos (degreesToRadians x₁) * Real.cos (degreesToRadians x₂) *
          hsin (degreesToRadians y₂ - degreesToRadians y₁) =
        hsin (degreesToRadians x₁ - degreesToRadians x₂) +
        Real.cos (degreesToRadians x₂) * Real.cos (degreesToRadians x₁) *
          hsin (degreesToRadians y₁ - degreesToRadians y₂) := by
      rw [hsin_sub_comm (degreesToRadians x₂) (degreesToRadians x₁),
        hsin_sub_comm (degreesToRadians y₂) (degreesToRadians y₁)]
      ring
    rw [key]
  exact ⟨base lat1 lon1 lat2 lon2 radius,
    base A.Lat A.Lon B.Lat B.Lon earthRadiusKm,
    base A.Lat A.Lon B.Lat B.Lon earthRadiusMi⟩

/-! ## C8: behaviour on read failure -/

/-- C8 (divergence): on an open failure the Go code calls `log.Fatal`
before its `return` statement, so the process exits and the IOError is
never returned to the caller; by contrast, a read error reported by
`scanner.Err()` after the scan loop does return an IOError. -/
theorem loadDataset_open_failure_fatal (α : Type) (pf : String → Option α)
    (msg : String) (scanErr : Option String) :
    loadDataset pf (Except.error msg) scanErr ("") = LoadResult.fatal msg ∧
    loadDataset pf (Except.ok []) (some msg) "" =
      LoadResult.err (LoadError.ioError msg) := by
  constructor <;> rfl
